import Mathlib

/-!
Verification of the wmbus_radio frame-acquisition core
(components/wmbus_radio: decode3of6.cpp, transceiver_cc1101.cpp,
component.cpp), shallowly embedded in Lean.

Bytes are modelled as natural numbers; every read of a uint8_t cell is
taken modulo 256, size_t subtraction is modelled modulo 2^64, and the
int8_t cast of the RSSI value is modelled as two-complement truncation
to 8 bits.
-/

/-! ## Ternary (3-of-6) line decoder — decode3of6.cpp -/

/-- Failure causes of decode3of6, following the two distinct warning
paths of the source (buffer overflow checks and table miss). The C++
function collapses both into an empty optional. -/
inductive DecodeErr where
  | bufferUnderrun
  | invalidSymbol
deriving DecidableEq

/-- The fixed 16-entry lookup table of decode3of6.cpp (lines 14-19),
mapping valid ternary-balanced 6-bit codes to nibbles; std::map::find
returning end() is modelled as none. -/
def lookup3of6 (code : Nat) : Option Nat :=
  if code = 0b010110 then some 0x0
  else if code = 0b001101 then some 0x1
  else if code = 0b001110 then some 0x2
  else if code = 0b001011 then some 0x3
  else if code = 0b011100 then some 0x4
  else if code = 0b011001 then some 0x5
  else if code = 0b011010 then some 0x6
  else if code = 0b010011 then some 0x7
  else if code = 0b101100 then some 0x8
  else if code = 0b100101 then some 0x9
  else if code = 0b100110 then some 0xA
  else if code = 0b100011 then some 0xB
  else if code = 0b110100 then some 0xC
  else if code = 0b110001 then some 0xD
  else if code = 0b110010 then some 0xE
  else if code = 0b101001 then some 0xF
  else none

/-- The encoding direction of the same fixed table (nibble to 6-bit
code), used to state the round-trip property of the table. -/
def encode3of6 (nibble : Nat) : Nat :=
  if nibble = 0x0 then 0b010110
  else if nibble = 0x1 then 0b001101
  else if nibble = 0x2 then 0b001110
  else if nibble = 0x3 then 0b001011
  else if nibble = 0x4 then 0b011100
  else if nibble = 0x5 then 0b011001
  else if nibble = 0x6 then 0b011010
  else if nibble = 0x7 then 0b010011
  else if nibble = 0x8 then 0b101100
  else if nibble = 0x9 then 0b100101
  else if nibble = 0xA then 0b100110
  else if nibble = 0xB then 0b100011
  else if nibble = 0xC then 0b110100
  else if nibble = 0xD then 0b110001
  else if nibble = 0xE then 0b110010
  else if nibble = 0xF then 0b101001
  else 0

/-- The raw 8-bit read of segment i inside the loop of decode3of6
(decode3of6.cpp lines 28-46): bounds checks and byte assembly, before
the final shift by 2 and the table lookup. -/
def read_code6 (data : List Nat) (i : Nat) : Except DecodeErr Nat :=
  let bit_idx := i * 6
  let byte_idx := bit_idx / 8
  let bit_offset := bit_idx % 8
  if byte_idx ≥ data.length then Except.error DecodeErr.bufferUnderrun
  else
    let code0 := ((data.getD byte_idx 0 % 256) <<< bit_offset) % 256
    if bit_offset > 0 then
      if byte_idx + 1 ≥ data.length then Except.error DecodeErr.bufferUnderrun
      else Except.ok (code0 ||| ((data.getD (byte_idx + 1) 0 % 256) >>> (8 - bit_offset)))
    else Except.ok code0

/-- Loop of decode3of6 (decode3of6.cpp lines 27-60). The first
argument counts the remaining loop iterations (the loop runs for
`segments` iterations unless it returns early), `i` is the loop index,
`data` is the coded input vector threaded through unchanged (the C++
takes it by reference and only reads it; the first component of the
result is its final contents), `acc` is decodedBytes. -/
def decode3of6Go (remaining i : Nat) (data acc : List Nat) :
    List Nat × Except DecodeErr (List Nat) :=
  match remaining with
  | 0 => (data, Except.ok acc)
  | r + 1 =>
    match read_code6 data i with
    | Except.error e => (data, Except.error e)
    | Except.ok codeFull =>
      match lookup3of6 (codeFull >>> 2) with
      | none => (data, Except.error DecodeErr.invalidSymbol)
      | some nib =>
        let acc2 := if i % 2 = 0 then acc ++ [nib <<< 4]
                    else acc.dropLast ++ [acc.getLast! ||| nib]
        decode3of6Go r (i + 1) data acc2

/-- decode3of6 with the failure cause kept (the source logs which
check failed before returning the empty optional). -/
def decode3of6E (coded_data : List Nat) : Except DecodeErr (List Nat) :=
  (decode3of6Go (coded_data.length * 8 / 6) 0 coded_data []).2

/-- decode3of6 as in the source signature: empty optional on failure. -/
def decode3of6 (coded_data : List Nat) : Option (List Nat) :=
  (decode3of6E coded_data).toOption

/-- The 6-bit window starting at bit 6*i of the byte sequence,
bit-packed MSB first, crossing byte boundaries (missing bytes read as
zero); used to state which symbol each loop iteration examines. -/
def window6 (data : List Nat) (i : Nat) : Nat :=
  ((data.getD (i * 6 / 8) 0 % 256) * 256 + data.getD (i * 6 / 8 + 1) 0 % 256)
    / 2 ^ (10 - i * 6 % 8) % 64

/-- encoded_size from decode3of6.cpp lines 66-70. -/
def encoded_size (decoded_size : Nat) : Nat :=
  (3 * decoded_size + 1) / 2

deriving instance DecidableEq for Except

/-! ## CC1101 receive state machine — transceiver_cc1101.cpp -/

/-- RX loop states (transceiver_cc1101.h lines 22-27). -/
inductive RxLoopState where
  | INIT_RX
  | WAIT_FOR_SYNC
  | WAIT_FOR_DATA
  | READ_DATA
deriving DecidableEq

/-- Detected wM-Bus frame mode (transceiver_cc1101.h lines 36-40). -/
inductive WMBusMode where
  | MODE_T
  | MODE_C
  | UNKNOWN
deriving DecidableEq

/-- Detected wM-Bus block type (transceiver_cc1101.h lines 43-47). -/
inductive WMBusBlock where
  | BLOCK_A
  | BLOCK_B
  | UNKNOWN
deriving DecidableEq

/-- CC1101 packet length mode (transceiver_cc1101.h lines 30-33). -/
inductive LengthMode where
  | INFINITE
  | FIXED
deriving DecidableEq

/-- The RX state-machine fields of the CC1101 class
(transceiver_cc1101.h lines 111-119). -/
structure CC1101State where
  rx_state : RxLoopState
  rx_buffer : List Nat
  bytes_received : Nat
  expected_length : Nat
  length_field : Nat
  length_mode : LengthMode
  wmbus_mode : WMBusMode
  wmbus_block : WMBusBlock
deriving DecidableEq

/-- Constants from transceiver_cc1101.h lines 125-130. -/
def WMBUS_MODE_C_PREAMBLE : Nat := 0x54

def WMBUS_BLOCK_A_PREAMBLE : Nat := 0xCD

def WMBUS_BLOCK_B_PREAMBLE : Nat := 0x3D

def MAX_FIXED_LENGTH : Nat := 256

def MAX_FRAME_SIZE : Nat := 512

/-- mode_t_packet_size (transceiver_cc1101.cpp lines 12-18). -/
def mode_t_packet_size (l_field : Nat) : Nat :=
  l_field + (l_field + 15) / 16 * 2 + 1

/-- size_t subtraction: both operands are size_t in the source, so the
difference wraps modulo 2^64 when the subtrahend is larger. -/
def sub_sz (a b : Nat) : Nat := (2 ^ 64 + a - b) % 2 ^ 64

/-- State after init_rx_ (transceiver_cc1101.cpp lines 335-381):
buffer and counters cleared, modes reset, next state WAIT_FOR_SYNC. -/
def initRxState : CC1101State where
  rx_state := RxLoopState.WAIT_FOR_SYNC
  rx_buffer := []
  bytes_received := 0
  expected_length := 0
  length_field := 0
  length_mode := LengthMode.INFINITE
  wmbus_mode := WMBusMode.UNKNOWN
  wmbus_block := WMBusBlock.UNKNOWN

/-- Environment observed during one wait_for_data_ call: the GDO0 pin,
the RXBYTES overflow flag, the four header bytes read from the FIFO,
and the bytes still resident in the FIFO at the drain step
(transceiver_cc1101.cpp line 497). -/
structure WaitForDataInput where
  gdo0 : Bool
  overflow : Bool
  h0 : Nat
  h1 : Nat
  h2 : Nat
  h3 : Nat
  fifo : List Nat
deriving DecidableEq

/-- Header classification of wait_for_data_ (transceiver_cc1101.cpp
lines 423-476, without the trailing drain): returns the updated state
and whether a frame type was recognised. In the preamble path the
mode field is assigned before the block type is examined, so an
unknown block type still leaves wmbus_mode set. -/
def classify (s : CC1101State) (inp : WaitForDataInput) : CC1101State × Bool :=
  if inp.h0 = WMBUS_MODE_C_PREAMBLE then
    let s1 := { s with wmbus_mode := WMBusMode.MODE_C }
    if inp.h1 = WMBUS_BLOCK_A_PREAMBLE then
      ({ s1 with wmbus_block := WMBusBlock.BLOCK_A
                 length_field := inp.h2
                 expected_length := 2 + mode_t_packet_size inp.h2
                 rx_buffer := s1.rx_buffer ++ [inp.h2]
                 bytes_received := 1 }, true)
    else if inp.h1 = WMBUS_BLOCK_B_PREAMBLE then
      ({ s1 with wmbus_block := WMBusBlock.BLOCK_B
                 length_field := inp.h2
                 expected_length := 2 + 1 + inp.h2
                 rx_buffer := s1.rx_buffer ++ [inp.h2]
                 bytes_received := 1 }, true)
    else (s1, false)
  else
    ({ s with wmbus_mode := WMBusMode.MODE_C
              wmbus_block := WMBusBlock.BLOCK_A
              length_field := inp.h0
              expected_length := 2 + mode_t_packet_size inp.h0
              rx_buffer := s.rx_buffer ++
                [WMBUS_MODE_C_PREAMBLE, WMBUS_BLOCK_A_PREAMBLE,
                 inp.h0, inp.h1, inp.h2, inp.h3]
              bytes_received := 6 }, true)

/-- Fixed-length-mode switch (transceiver_cc1101.cpp lines 484-489);
the register writes themselves are outside the model. -/
def set_fixed_mode (s : CC1101State) : CC1101State :=
  if s.expected_length < MAX_FIXED_LENGTH then
    { s with length_mode := LengthMode.FIXED }
  else s

/-- FIFO drain at the end of wait_for_data_ (transceiver_cc1101.cpp
lines 497-514). RXBYTES is masked with 0x7F in the source. -/
def drain_fifo (s : CC1101State) (fifo : List Nat) : CC1101State :=
  let bytes_in_fifo := fifo.length % 128
  if bytes_in_fifo > 0 then
    let bytes_remaining := sub_sz s.expected_length s.bytes_received
    let bytes_to_read := min bytes_in_fifo bytes_remaining
    if bytes_to_read > 0 then
      { s with rx_buffer := s.rx_buffer ++ fifo.take bytes_to_read
               bytes_received := s.bytes_received + bytes_to_read }
    else s
  else s

/-- Tail of wait_for_data_ after successful classification. -/
def finish_header (s : CC1101State) (fifo : List Nat) : CC1101State :=
  drain_fifo (set_fixed_mode s) fifo

/-- wait_for_data_ (transceiver_cc1101.cpp lines 391-517): returns the
updated state and the boolean result (true means the header was read
and the caller moves to READ_DATA). -/
def wait_for_data (s : CC1101State) (inp : WaitForDataInput) : CC1101State × Bool :=
  if inp.gdo0 = false then (s, false)
  else if inp.overflow = true then ({ s with rx_state := RxLoopState.INIT_RX }, false)
  else
    let c := classify s inp
    if c.2 = true then (finish_header c.1 inp.fifo, true)
    else (c.1, false)

/-- Environment observed during one read_data_ call: the overflow
flag, the FIFO contents at the main read, and the FIFO contents at the
final residual read of the completion branch. -/
structure ReadDataInput where
  overflow : Bool
  fifo : List Nat
  fifo2 : List Nat
deriving DecidableEq

/-- The FIFO read of read_data_ (transceiver_cc1101.cpp lines
527-564): tiered read policy, clamped to the remaining expected bytes;
none models the early false return of the frame-too-large check. -/
def read_step (s : CC1101State) (fifo : List Nat) : Option CC1101State :=
  let bytes_in_fifo := fifo.length % 128
  if bytes_in_fifo > 0 then
    let bytes_remaining := sub_sz s.expected_length s.bytes_received
    let btr0 :=
      if bytes_in_fifo > 48 then bytes_in_fifo
      else if bytes_remaining ≤ bytes_in_fifo then bytes_remaining
      else if bytes_in_fifo > 1 then bytes_in_fifo - 1
      else 0
    if btr0 > 0 then
      let btr := min btr0 bytes_remaining
      if s.rx_buffer.length + btr > MAX_FRAME_SIZE then none
      else some { s with rx_buffer := s.rx_buffer ++ fifo.take btr
                         bytes_received := s.bytes_received + btr }
    else some s
  else some s

/-- read_data_ (transceiver_cc1101.cpp lines 519-585): returns the
updated state and true when the frame is complete. -/
def read_data (s : CC1101State) (inp : ReadDataInput) : CC1101State × Bool :=
  if inp.overflow = true then ({ s with rx_state := RxLoopState.INIT_RX }, false)
  else
    match read_step s inp.fifo with
    | none => (s, false)
    | some s1 =>
      if s1.bytes_received ≥ s1.expected_length then
        let bif2 := inp.fifo2.length % 128
        let s2 :=
          if bif2 > 0 then { s1 with rx_buffer := s1.rx_buffer ++ inp.fifo2.take bif2 }
          else s1
        (s2, true)
      else (s1, false)

/-- Frame-completion handling inside the READ_DATA case of CC1101 read
(transceiver_cc1101.cpp lines 263-315): Mode T frames are 3-of-6
decoded (failure aborts to INIT_RX with no value), then the state
returns to INIT_RX and the first byte of the buffer is yielded. -/
def finish_frame (s : CC1101State) : CC1101State × Option Nat :=
  if s.wmbus_mode = WMBusMode.MODE_T then
    match decode3of6 s.rx_buffer with
    | none => ({ s with rx_state := RxLoopState.INIT_RX }, none)
    | some dec =>
      let s2 := { s with rx_buffer := dec, rx_state := RxLoopState.INIT_RX }
      if dec.isEmpty then (s2, none) else (s2, some (dec.headD 0))
  else
    let s2 := { s with rx_state := RxLoopState.INIT_RX }
    if s.rx_buffer.isEmpty then (s2, none) else (s2, some (s.rx_buffer.headD 0))

/-- The tight reading loop of the READ_DATA case of CC1101 read
(transceiver_cc1101.cpp lines 250-327): repeat read_data_ until the
frame completes or an iteration makes no progress; each list entry is
the environment seen by one iteration. -/
def read_data_loop : CC1101State → List ReadDataInput → CC1101State × Option Nat
  | s, [] => (s, none)
  | s, inp :: rest =>
    let res := read_data s inp
    if res.2 = true then finish_frame res.1
    else if res.1.bytes_received = s.bytes_received then (res.1, none)
    else read_data_loop res.1 rest

/-- FrameAccumulator invariant from the spec data model. -/
abbrev AccInv (s : CC1101State) : Prop :=
  s.bytes_received ≤ s.expected_length ∧ s.expected_length ≤ MAX_FRAME_SIZE

/-! ## Handoff queue — component.cpp -/

/-- Modelled from the spec: the FreeRTOS queue primitives
(xQueueCreate, xQueueSend with zero timeout, xQueueReceive) used by
Radio setup and Radio receive_frame are an external library whose code
is not under src/; per the spec they form a bounded FIFO whose
zero-timeout enqueue fails when the queue is full. -/
structure BoundedQueue (α : Type) where
  capacity : Nat
  items : List α
deriving DecidableEq

/-- Modelled from the spec: queue creation with a fixed capacity. -/
def xQueueCreate (α : Type) (capacity : Nat) : BoundedQueue α := ⟨capacity, []⟩

/-- Modelled from the spec: zero-timeout enqueue, failing immediately
(no retry) when the queue already holds capacity items. -/
def xQueueSend {α : Type} (q : BoundedQueue α) (item : α) : BoundedQueue α × Bool :=
  if q.items.length < q.capacity then ({ q with items := q.items ++ [item] }, true)
  else (q, false)

/-- Modelled from the spec: non-blocking dequeue in FIFO order. -/
def xQueueReceive {α : Type} (q : BoundedQueue α) : BoundedQueue α × Option α :=
  match q.items with
  | [] => (q, none)
  | x :: rest => ({ q with items := rest }, some x)

/-- The packet queue created in Radio setup (component.cpp line 23):
capacity 3; packets are identified here by a numeric id. -/
def radioPacketQueue : BoundedQueue Nat := xQueueCreate Nat 3

/-! ## RSSI conversion — transceiver_cc1101.cpp get_rssi -/

/-- Two-complement truncation of an integer to 8 bits, modelling the
static_cast to int8_t. -/
def toInt8 (x : Int) : Int := (x + 128) % 256 - 128

/-- The int16_t dBm value computed by get_rssi (transceiver_cc1101.cpp
lines 147-162) from the raw RSSI register byte; C++ signed division
truncates toward zero, which is Int.tdiv. -/
def rssi_dbm (raw : Nat) : Int :=
  if raw ≥ 128 then Int.tdiv ((raw : Int) - 256) 2 - 74
  else Int.tdiv (raw : Int) 2 - 74

/-- get_rssi: the dBm value cast to int8_t on return. -/
def get_rssi (raw : Nat) : Int := toInt8 (rssi_dbm raw)

/-! ## Supporting lemmas -/

/-- The coded buffer passes through every loop iteration of decode3of6
unchanged: the loop only reads it. -/
theorem decode3of6Go_fst (r : Nat) : ∀ (i : Nat) (data acc : List Nat),
    (decode3of6Go r i data acc).1 = data := by
  induction r with
  | zero => intro i data acc; rfl
  | succ r ih =>
    intro i data acc
    rw [decode3of6Go]
    cases hrc : read_code6 data i with
    | error e => rfl
    | ok codeFull =>
      dsimp only
      cases hlk : lookup3of6 (codeFull >>> 2) with
      | none => rfl
      | some nib => exact ih (i + 1) data _

/-- A segment whose bit offset is positive and whose following byte
index reaches the end of the buffer makes read_code6 fail. -/
theorem read_code6_underrun (data : List Nat) (j : Nat)
    (h : j * 6 % 8 > 0 ∧ j * 6 / 8 + 1 ≥ data.length) :
    ∃ e, read_code6 data j = Except.error e := by
  unfold read_code6
  dsimp only
  split_ifs with h1 h2 h3
  · exact ⟨_, rfl⟩
  · exact ⟨_, rfl⟩
  · omega
  · omega

/-- If some segment within the remaining iteration range triggers the
second bounds check, the decode loop ends in an error. -/
theorem decode3of6Go_err (data : List Nat) (j : Nat)
    (hj : j * 6 % 8 > 0 ∧ j * 6 / 8 + 1 ≥ data.length) :
    ∀ (r i : Nat) (acc : List Nat), i ≤ j → j < i + r →
      ∃ e, (decode3of6Go r i data acc).2 = Except.error e := by
  intro r
  induction r with
  | zero => intro i acc h1 h2; omega
  | succ r ih =>
    intro i acc h1 h2
    rw [decode3of6Go]
    cases hrc : read_code6 data i with
    | error e => exact ⟨e, rfl⟩
    | ok codeFull =>
      dsimp only
      by_cases hij : i = j
      · subst hij
        obtain ⟨e, he⟩ := read_code6_underrun data i hj
        rw [he] at hrc
        cases hrc
      · cases hlk : lookup3of6 (codeFull >>> 2) with
        | none => exact ⟨_, rfl⟩
        | some nib => exact ih (i + 1) _ (by omega) (by omega)

/-- decode3of6 fails on every nonempty input whose length is a
multiple of 3 (exactly the inputs whose bit length is a whole number
of 6-bit segments): the last segment always starts at bit offset 2 of
the final byte, and the source then insists on bounds-checking a
following byte that does not exist. -/
theorem decode3of6_aligned_fails (data : List Nat)
    (h3 : data.length % 3 = 0) (h0 : data.length ≠ 0) :
    decode3of6 data = none := by
  obtain ⟨k, hk⟩ : ∃ k, data.length = 3 * k := ⟨data.length / 3, by omega⟩
  have hj : (4 * k - 1) * 6 % 8 > 0 ∧ (4 * k - 1) * 6 / 8 + 1 ≥ data.length := by
    constructor <;> omega
  obtain ⟨e, he⟩ := decode3of6Go_err data (4 * k - 1) hj (data.length * 8 / 6) 0 []
    (by omega) (by omega)
  unfold decode3of6 decode3of6E
  rw [he]
  rfl

/-- Witness instance of the aligned-failure theorem on a concrete
six-byte all-valid buffer. -/
theorem decode3of6_aligned_fails_witness :
    decode3of6 [0x58, 0xD3, 0x8B, 0x58, 0xD3, 0x8B] = none :=
  decode3of6_aligned_fails [0x58, 0xD3, 0x8B, 0x58, 0xD3, 0x8B] (by decide) (by decide)

/-- set_fixed_mode only touches the length-mode flag. -/
theorem set_fixed_mode_fields (s : CC1101State) :
    (set_fixed_mode s).bytes_received = s.bytes_received ∧
    (set_fixed_mode s).expected_length = s.expected_length ∧
    (set_fixed_mode s).rx_buffer = s.rx_buffer := by
  unfold set_fixed_mode
  split_ifs <;> exact ⟨rfl, rfl, rfl⟩

/-- The post-header drain preserves the accumulator invariant: it
reads at most the remaining expected bytes. -/
theorem drain_fifo_inv (s : CC1101State) (fifo : List Nat) (h : AccInv s) :
    AccInv (drain_fifo s fifo) := by
  obtain ⟨h1, h2⟩ := h
  unfold drain_fifo sub_sz
  dsimp only
  split_ifs with ha hb
  · refine ⟨?_, ?_⟩ <;> dsimp only <;> unfold MAX_FRAME_SIZE at * <;> omega
  · exact ⟨h1, h2⟩
  · exact ⟨h1, h2⟩

/-- The whole tail of wait_for_data_ preserves the invariant. -/
theorem finish_header_inv (s : CC1101State) (fifo : List Nat) (h : AccInv s) :
    AccInv (finish_header s fifo) := by
  apply drain_fifo_inv
  obtain ⟨f1, f2, f3⟩ := set_fixed_mode_fields s
  exact ⟨by rw [f1, f2]; exact h.1, by rw [f2]; exact h.2⟩

/-- Header classification establishes the invariant for every byte
sequence whose first byte is nonzero (byte values are below 256). -/
theorem classify_inv (s : CC1101State) (inp : WaitForDataInput)
    (hh0 : inp.h0 < 256) (hh2 : inp.h2 < 256) (hne : inp.h0 ≠ 0)
    (ht : (classify s inp).2 = true) : AccInv (classify s inp).1 := by
  unfold classify
  by_cases h1 : inp.h0 = WMBUS_MODE_C_PREAMBLE
  · rw [if_pos h1]
    by_cases h2 : inp.h1 = WMBUS_BLOCK_A_PREAMBLE
    · rw [if_pos h2]
      refine ⟨?_, ?_⟩ <;> dsimp only <;>
        (try simp only [mode_t_packet_size, MAX_FRAME_SIZE]) <;> omega
    · rw [if_neg h2]
      by_cases h3 : inp.h1 = WMBUS_BLOCK_B_PREAMBLE
      · rw [if_pos h3]
        refine ⟨?_, ?_⟩ <;> dsimp only <;>
          (try simp only [mode_t_packet_size, MAX_FRAME_SIZE]) <;> omega
      · exfalso
        unfold classify at ht
        rw [if_pos h1, if_neg h2, if_neg h3] at ht
        dsimp only at ht
        exact Bool.noConfusion ht
  · rw [if_neg h1]
    refine ⟨?_, ?_⟩ <;> dsimp only <;>
      (try simp only [mode_t_packet_size, MAX_FRAME_SIZE]) <;> omega

/-- The tiered FIFO read of read_data_ preserves the invariant: every
read amount is clamped to the remaining expected bytes. -/
theorem read_step_inv (s : CC1101State) (fifo : List Nat) (h : AccInv s)
    (s1 : CC1101State) (hs : read_step s fifo = some s1) : AccInv s1 := by
  obtain ⟨h1, h2⟩ := h
  unfold MAX_FRAME_SIZE at h2
  have hrem : (2 ^ 64 + s.expected_length - s.bytes_received) % 2 ^ 64
      = s.expected_length - s.bytes_received := by omega
  unfold read_step sub_sz at hs
  dsimp only at hs
  rw [hrem] at hs
  split_ifs at hs <;> cases hs <;>
    refine ⟨?_, ?_⟩ <;> (try dsimp only) <;>
      (try simp only [MAX_FRAME_SIZE]) <;> omega

/-- The drain step never changes the expected length. -/
theorem drain_fifo_expected (s : CC1101State) (fifo : List Nat) :
    (drain_fifo s fifo).expected_length = s.expected_length := by
  unfold drain_fifo
  dsimp only
  split_ifs <;> rfl

/-- The wait_for_data_ tail never changes the expected length. -/
theorem finish_header_expected (s : CC1101State) (fifo : List Nat) :
    (finish_header s fifo).expected_length = s.expected_length := by
  unfold finish_header
  rw [drain_fifo_expected]
  exact (set_fixed_mode_fields s).2.1

/-- Draining an empty FIFO is the identity. -/
theorem drain_fifo_nil (s : CC1101State) : drain_fifo s [] = s := rfl

/-! ## Claim theorems -/

/-- Claim C1: the claim says decode3of6 succeeds on every input whose
bit length is a whole number of 6-bit symbols when all windows are
valid table codes, and in particular that a 12-byte all-valid buffer
decodes successfully. The code contradicts this: the two-symbol
example [0x58, 0xD3] (symbols 0b010110, 0b001101 plus four padding
bits) does decode to 0x01, but the aligned 3-byte buffer
[0x58, 0xD3, 0x8B] (exactly the four valid symbols 0b010110 0b001101
0b001110 0b001011) and the aligned 12-byte all-valid buffer both fail
with the buffer-underrun check, because the last segment starts at bit
offset 2 of the final byte and the code then bounds-checks a following
byte that does not exist. -/
theorem c1_decode3of6_bug :
    decode3of6 [0x58, 0xD3] = some [0x01] ∧
    (∀ i : Fin 4, (lookup3of6 (window6 [0x58, 0xD3, 0x8B] i.val)).isSome = true) ∧
    decode3of6E [0x58, 0xD3, 0x8B] = Except.error DecodeErr.bufferUnderrun ∧
    decode3of6 [0x58, 0xD3, 0x8B] = none ∧
    decode3of6E [0x58, 0xD3, 0x8B, 0x58, 0xD3, 0x8B, 0x58, 0xD3, 0x8B, 0x58, 0xD3, 0x8B]
      = Except.error DecodeErr.bufferUnderrun :=
  ⟨by decide, by decide, by decide, by decide, by decide⟩

/-- Claim C2, counterexample to the claim as stated: for the header
byte sequence taking the bare-header path with first byte 0x00
(L-field 0) and an empty FIFO, header classification succeeds but
leaves bytes_received = 6 above expected_length = 3, violating
bytes_received ≤ expected_length. -/
theorem c2_counterexample :
    (wait_for_data initRxState ⟨true, false, 0, 0, 0, 0, []⟩).2 = true ∧
    (wait_for_data initRxState ⟨true, false, 0, 0, 0, 0, []⟩).1.expected_length = 3 ∧
    (wait_for_data initRxState ⟨true, false, 0, 0, 0, 0, []⟩).1.bytes_received = 6 ∧
    ¬ AccInv (wait_for_data initRxState ⟨true, false, 0, 0, 0, 0, []⟩).1 :=
  ⟨by decide, by decide, by decide, by decide⟩

/-- Claim C2, amended: bytes_received ≤ expected_length ≤
MAX_FRAME_SIZE holds after header classification for every header byte
sequence whose first byte is nonzero (the L-field 0 bare-header case
is the sole exception), and is preserved by every subsequent
read_data_ step. -/
theorem c2_invariant :
    (∀ (s : CC1101State) (inp : WaitForDataInput),
      inp.h0 < 256 → inp.h2 < 256 → inp.h0 ≠ 0 →
      (wait_for_data s inp).2 = true → AccInv (wait_for_data s inp).1) ∧
    (∀ (s : CC1101State) (inp : ReadDataInput),
      AccInv s → AccInv (read_data s inp).1) := by
  constructor
  · intro s inp hh0 hh2 hne ht
    unfold wait_for_data at ht ⊢
    by_cases hg : inp.gdo0 = false
    · rw [if_pos hg] at ht
      exact Bool.noConfusion ht
    · rw [if_neg hg] at ht ⊢
      by_cases hov : inp.overflow = true
      · rw [if_pos hov] at ht
        dsimp only at ht
        exact Bool.noConfusion ht
      · rw [if_neg hov] at ht ⊢
        dsimp only at ht ⊢
        by_cases hc : (classify s inp).2 = true
        · rw [if_pos hc]
          dsimp only
          exact finish_header_inv _ _ (classify_inv s inp hh0 hh2 hne hc)
        · rw [if_neg hc] at ht
          dsimp only at ht
          exact Bool.noConfusion ht
  · intro s inp h
    unfold read_data
    by_cases hov : inp.overflow = true
    · rw [if_pos hov]
      exact ⟨h.1, h.2⟩
    · rw [if_neg hov]
      cases hrs : read_step s inp.fifo with
      | none => exact ⟨h.1, h.2⟩
      | some s1 =>
        have h1 := read_step_inv s inp.fifo h s1 hrs
        dsimp only
        by_cases hcomp : s1.bytes_received ≥ s1.expected_length
        · rw [if_pos hcomp]
          dsimp only
          by_cases hb2 : inp.fifo2.length % 128 > 0
          · rw [if_pos hb2]
            exact ⟨h1.1, h1.2⟩
          · rw [if_neg hb2]
            exact h1
        · rw [if_neg hcomp]
          exact h1

set_option maxRecDepth 40000 in
/-- Claim C2, witness: the amended invariant at a concrete Block A
header with two FIFO bytes, and preservation at a concrete mid-frame
read step. -/
theorem c2_invariant_witness :
    AccInv (wait_for_data initRxState ⟨true, false, 0x54, 0xCD, 10, 0, [1, 2]⟩).1 ∧
    AccInv (read_data ⟨RxLoopState.READ_DATA, [0x0A], 1, 15, 10, LengthMode.FIXED,
      WMBusMode.MODE_C, WMBusBlock.BLOCK_A⟩ ⟨false, [5, 6], []⟩).1 :=
  ⟨c2_invariant.1 initRxState ⟨true, false, 0x54, 0xCD, 10, 0, [1, 2]⟩
      (by decide) (by decide) (by decide) (by decide),
   c2_invariant.2 ⟨RxLoopState.READ_DATA, [0x0A], 1, 15, 10, LengthMode.FIXED,
      WMBusMode.MODE_C, WMBusBlock.BLOCK_A⟩ ⟨false, [5, 6], []⟩ (by decide)⟩

/-- Claim C3: when the first header byte is the Mode C preamble 0x54
and the second the Block A preamble 0xCD, wait_for_data_ succeeds and
sets expected_length to exactly 2 + mode_t_packet_size of the third
header byte, where mode_t_packet_size l = l + 2 * ceil(l / 16) + 1
(the quotient (l + 15) / 16 is characterised as the ceiling of l / 16
by the two inequalities); in particular for l = 10 the expected length
is 15. -/
theorem c3_expected_length (s : CC1101State) (inp : WaitForDataInput)
    (hg : inp.gdo0 = true) (hov : inp.overflow = false)
    (h0 : inp.h0 = 0x54) (h1 : inp.h1 = 0xCD) :
    (wait_for_data s inp).2 = true ∧
    (wait_for_data s inp).1.expected_length = 2 + mode_t_packet_size inp.h2 ∧
    mode_t_packet_size inp.h2 = inp.h2 + 2 * ((inp.h2 + 15) / 16) + 1 ∧
    inp.h2 ≤ 16 * ((inp.h2 + 15) / 16) ∧
    16 * ((inp.h2 + 15) / 16) < inp.h2 + 16 ∧
    2 + mode_t_packet_size 10 = 15 := by
  have hcl : classify s inp =
      ({ s with wmbus_mode := WMBusMode.MODE_C
                wmbus_block := WMBusBlock.BLOCK_A
                length_field := inp.h2
                expected_length := 2 + mode_t_packet_size inp.h2
                rx_buffer := s.rx_buffer ++ [inp.h2]
                bytes_received := 1 }, true) := by
    unfold classify
    rw [if_pos (show inp.h0 = WMBUS_MODE_C_PREAMBLE from h0),
        if_pos (show inp.h1 = WMBUS_BLOCK_A_PREAMBLE from h1)]
  have hw : wait_for_data s inp =
      (finish_header (classify s inp).1 inp.fifo, true) := by
    unfold wait_for_data
    rw [if_neg (by simp [hg]), if_neg (by simp [hov])]
    dsimp only
    rw [if_pos (by rw [hcl])]
  refine ⟨by rw [hw], ?_, ?_, ?_, ?_, by decide⟩
  · rw [hw]
    dsimp only
    rw [finish_header_expected, hcl]
  · unfold mode_t_packet_size
    omega
  · omega
  · omega

set_option maxRecDepth 40000 in
/-- Claim C3, witness: the Block A header with L-field 10 from the
initial state yields expected_length 15. -/
theorem c3_expected_length_witness :
    (wait_for_data initRxState ⟨true, false, 0x54, 0xCD, 10, 0, []⟩).2 = true ∧
    (wait_for_data initRxState ⟨true, false, 0x54, 0xCD, 10, 0, []⟩).1.expected_length
      = 2 + mode_t_packet_size 10 ∧
    mode_t_packet_size 10 = 10 + 2 * ((10 + 15) / 16) + 1 ∧
    10 ≤ 16 * ((10 + 15) / 16) ∧
    16 * ((10 + 15) / 16) < 10 + 16 ∧
    2 + mode_t_packet_size 10 = 15 :=
  c3_expected_length initRxState ⟨true, false, 0x54, 0xCD, 10, 0, []⟩ rfl rfl rfl rfl

/-- Claim C4: the fixed table is total and injective on nibbles
0x0..0xF; for every 6-bit code in the table, decoding a buffer that
carries it and re-encoding the resulting nibble round-trips to the
original code; and for every 6-bit pattern not in the table, decoding
fails with InvalidSymbol, which the source reports as an empty
result. A single code c is fed to the decoder as the one-byte buffer
c <<< 2, whose sole 6-bit segment is exactly c. -/
theorem c4_table_roundtrip : ∀ c : Fin 64,
    ((lookup3of6 c.val).isSome = true →
      (lookup3of6 c.val).getD 0 < 16 ∧
      encode3of6 ((lookup3of6 c.val).getD 0) = c.val ∧
      decode3of6 [c.val <<< 2] = some [((lookup3of6 c.val).getD 0) <<< 4]) ∧
    (lookup3of6 c.val = none →
      decode3of6E [c.val <<< 2] = Except.error DecodeErr.invalidSymbol ∧
      decode3of6 [c.val <<< 2] = none) ∧
    (∀ n : Fin 16, lookup3of6 (encode3of6 n.val) = some n.val) ∧
    (∀ c2 : Fin 64, lookup3of6 c.val = lookup3of6 c2.val →
      (lookup3of6 c.val).isSome = true → c = c2) := by decide

/-- Claim C5: encoded_size is the exact-integer ceiling of
3 * decoded_len / 2 (characterised by the two inequalities), a buffer
of encoded_size n bytes holds exactly the 2 * n six-bit segments that
decode to n bytes, and the function takes the values 0, 2, 3, 24, 26
at decoded lengths 0, 1, 2, 16, 17. -/
theorem c5_encoded_size : ∀ n : Nat,
    (3 * n ≤ 2 * encoded_size n ∧ 2 * encoded_size n ≤ 3 * n + 1) ∧
    encoded_size n * 8 / 6 / 2 = n ∧
    (encoded_size 0 = 0 ∧ encoded_size 1 = 2 ∧ encoded_size 2 = 3 ∧
     encoded_size 16 = 24 ∧ encoded_size 17 = 26) := by
  intro n
  unfold encoded_size
  refine ⟨⟨by omega, by omega⟩, by omega, by decide⟩

/-- Claim C6: when the first header byte differs from the 0x54
preamble, wait_for_data_ succeeds and, with no further bytes resident
in the FIFO at the drain instant, the accumulator holds exactly the
two synthesized bytes 0x54 0xCD followed by the four verbatim header
bytes, and bytes_received equals 6. -/
theorem c6_bare_header (inp : WaitForDataInput)
    (hg : inp.gdo0 = true) (hov : inp.overflow = false)
    (h0 : inp.h0 ≠ 0x54) (hf : inp.fifo = []) :
    (wait_for_data initRxState inp).2 = true ∧
    (wait_for_data initRxState inp).1.rx_buffer
      = [0x54, 0xCD, inp.h0, inp.h1, inp.h2, inp.h3] ∧
    (wait_for_data initRxState inp).1.bytes_received = 6 := by
  have hcl : classify initRxState inp =
      ({ initRxState with
           wmbus_mode := WMBusMode.MODE_C
           wmbus_block := WMBusBlock.BLOCK_A
           length_field := inp.h0
           expected_length := 2 + mode_t_packet_size inp.h0
           rx_buffer := [0x54, 0xCD, inp.h0, inp.h1, inp.h2, inp.h3]
           bytes_received := 6 }, true) := by
    unfold classify
    rw [if_neg (show ¬ inp.h0 = WMBUS_MODE_C_PREAMBLE from h0)]
    rfl
  have hw : wait_for_data initRxState inp =
      (finish_header (classify initRxState inp).1 inp.fifo, true) := by
    unfold wait_for_data
    rw [if_neg (by simp [hg]), if_neg (by simp [hov])]
    dsimp only
    rw [if_pos (by rw [hcl])]
  rw [hw, hf, hcl]
  unfold finish_header
  rw [drain_fifo_nil]
  refine ⟨rfl, ?_, ?_⟩ <;>
    · unfold set_fixed_mode
      split_ifs <;> rfl

set_option maxRecDepth 40000 in
/-- Claim C6, witness: the bare header 0x20 0x44 0x68 0x01 (L-field
0x20 = 32) with an empty FIFO. -/
theorem c6_bare_header_witness :
    (wait_for_data initRxState ⟨true, false, 0x20, 0x44, 0x68, 0x01, []⟩).2 = true ∧
    (wait_for_data initRxState ⟨true, false, 0x20, 0x44, 0x68, 0x01, []⟩).1.rx_buffer
      = [0x54, 0xCD, 0x20, 0x44, 0x68, 0x01] ∧
    (wait_for_data initRxState ⟨true, false, 0x20, 0x44, 0x68, 0x01, []⟩).1.bytes_received = 6 :=
  c6_bare_header ⟨true, false, 0x20, 0x44, 0x68, 0x01, []⟩ rfl rfl (by decide) rfl

/-- Claim C7: within one polling step of the READ_DATA loop, a
detected FIFO overflow makes the state machine return to INIT_RX and
yield no value, and a frame whose completed buffer fails the 3-of-6
decode under Mode T likewise returns to INIT_RX and yields no value —
no packet byte is ever emitted for either attempt. -/
theorem c7_failure_aborts (s : CC1101State) (inp : ReadDataInput)
    (rest : List ReadDataInput) :
    (inp.overflow = true →
      read_data_loop s (inp :: rest)
        = ({ s with rx_state := RxLoopState.INIT_RX }, none)) ∧
    (∀ s1 : CC1101State, read_data s inp = (s1, true) →
      s1.wmbus_mode = WMBusMode.MODE_T → decode3of6 s1.rx_buffer = none →
      read_data_loop s (inp :: rest)
        = ({ s1 with rx_state := RxLoopState.INIT_RX }, none)) := by
  constructor
  · intro hov
    have hrd : read_data s inp = ({ s with rx_state := RxLoopState.INIT_RX }, false) := by
      unfold read_data
      rw [if_pos hov]
    simp only [read_data_loop]
    rw [hrd]
    dsimp only
    rw [if_neg (by simp), if_pos rfl]
  · intro s1 hrd hmode hdec
    simp only [read_data_loop]
    rw [hrd]
    dsimp only
    rw [if_pos rfl]
    unfold finish_frame
    rw [if_pos hmode, hdec]

set_option maxRecDepth 40000 in
/-- Claim C7, witness: an overflow signalled with the FIFO feed of one
polling step aborts to INIT_RX with no value, and a completed Mode T
frame whose buffer [0x58, 0xD3, 0x8B] fails the 3-of-6 decode aborts
to INIT_RX with no value. -/
theorem c7_failure_aborts_witness :
    read_data_loop { initRxState with rx_state := RxLoopState.READ_DATA } [⟨true, [], []⟩]
      = ({ initRxState with rx_state := RxLoopState.INIT_RX }, none) ∧
    read_data_loop ⟨RxLoopState.READ_DATA, [0x58, 0xD3, 0x8B], 3, 3, 1, LengthMode.FIXED,
        WMBusMode.MODE_T, WMBusBlock.BLOCK_A⟩ [⟨false, [], []⟩]
      = (⟨RxLoopState.INIT_RX, [0x58, 0xD3, 0x8B], 3, 3, 1, LengthMode.FIXED,
          WMBusMode.MODE_T, WMBusBlock.BLOCK_A⟩, none) :=
  ⟨(c7_failure_aborts { initRxState with rx_state := RxLoopState.READ_DATA }
      ⟨true, [], []⟩ []).1 rfl,
   (c7_failure_aborts ⟨RxLoopState.READ_DATA, [0x58, 0xD3, 0x8B], 3, 3, 1, LengthMode.FIXED,
       WMBusMode.MODE_T, WMBusBlock.BLOCK_A⟩ ⟨false, [], []⟩ []).2
     ⟨RxLoopState.READ_DATA, [0x58, 0xD3, 0x8B], 3, 3, 1, LengthMode.FIXED,
       WMBusMode.MODE_T, WMBusBlock.BLOCK_A⟩ (by decide) rfl (by decide)⟩

/-- Claim C8: the handoff queue is created with capacity 3 and the
zero-timeout enqueue of Radio receive_frame fails immediately on a
4th packet while 3 are pending, leaving the queue unchanged and the 3
pending packets retrievable in their original enqueue order. -/
theorem c8_queue_capacity (p1 p2 p3 p4 : Nat) :
    (xQueueSend radioPacketQueue p1).2 = true ∧
    (xQueueSend (xQueueSend radioPacketQueue p1).1 p2).2 = true ∧
    (xQueueSend (xQueueSend (xQueueSend radioPacketQueue p1).1 p2).1 p3).2 = true ∧
    xQueueSend (xQueueSend (xQueueSend (xQueueSend radioPacketQueue p1).1 p2).1 p3).1 p4
      = ((xQueueSend (xQueueSend (xQueueSend radioPacketQueue p1).1 p2).1 p3).1, false) ∧
    (xQueueReceive (xQueueSend (xQueueSend (xQueueSend radioPacketQueue p1).1 p2).1 p3).1).2
      = some p1 ∧
    (xQueueReceive (xQueueReceive
        (xQueueSend (xQueueSend (xQueueSend radioPacketQueue p1).1 p2).1 p3).1).1).2
      = some p2 ∧
    (xQueueReceive (xQueueReceive (xQueueReceive
        (xQueueSend (xQueueSend (xQueueSend radioPacketQueue p1).1 p2).1 p3).1).1).1).2
      = some p3 ∧
    (xQueueReceive (xQueueReceive (xQueueReceive
        (xQueueSend (xQueueSend (xQueueSend radioPacketQueue p1).1 p2).1 p3).1).1).1).1.items
      = [] :=
  ⟨rfl, rfl, rfl, rfl, rfl, rfl, rfl, rfl⟩

/-- Claim C9: decode3of6 never modifies its coded_data argument: the
buffer threaded through the loop (the C++ function receives it by
non-const reference but only reads it) comes back unchanged from the
full call, whether the decode succeeds or fails either check. -/
theorem c9_input_buffer_preserved (data : List Nat) :
    (decode3of6Go (data.length * 8 / 6) 0 data []).1 = data :=
  decode3of6Go_fst (data.length * 8 / 6) 0 data []

set_option maxRecDepth 8000 in
/-- Claim C10: for every raw RSSI register byte, the dBm value
computed with truncation toward zero always lies in [-138, -11]; for
raw bytes 128..146 it is below -128, so the int8_t cast returns the
value plus 256, and for every other raw byte the cast returns the
value itself. -/
theorem c10_rssi_conversion : ∀ r : Fin 256,
    (-138 ≤ rssi_dbm r.val ∧ rssi_dbm r.val ≤ -11) ∧
    (128 ≤ r.val ∧ r.val ≤ 146 →
      rssi_dbm r.val < -128 ∧ get_rssi r.val = rssi_dbm r.val + 256) ∧
    (r.val < 128 ∨ 147 ≤ r.val →
      -128 ≤ rssi_dbm r.val ∧ get_rssi r.val = rssi_dbm r.val) := by decide
